import Mathlib

/-!
# Verification of the AATM message-bus middleware

A shallow embedding, in Lean 4, of the Autonomous Adaptive Trading
Middleware (AATM): the message data model and `__post_init__` defaulting
from `aatmmiddleware.py`, the configuration singleton from `config.py`,
and the bus components (Router, Dispatcher, Subscription Registry) that
the repository's specification describes.  `aatmmiddleware.py` breaks off
inside `MiddlewareMessage.__post_init__`, so the bus components past that
point are modelled from the specification text; each such definition says
so in its doc comment.  Python `float` values (timestamps, rates) are
modelled as `Rat`, Python `int` as `Int`, and Python dictionaries as
association lists.
-/

/-- The `MessageType` enum of `aatmmiddleware.py` (lines 17-24). -/
inductive MessageType where
  | MARKET_DATA
  | TRADING_SIGNAL
  | ORDER_EXECUTION
  | RISK_ALERT
  | STRATEGY_UPDATE
  | PERFORMANCE_METRIC
  deriving DecidableEq, Repr

/-- A structured payload value (Python `Any` restricted to scalars; the
bus never inspects payload contents, so this restriction is harmless). -/
inductive PValue where
  | str (s : String)
  | num (n : Int)
  | rat (q : Rat)
  | flag (b : Bool)
  deriving DecidableEq, Repr

/-- A Python `Dict[str, Any]` payload, as an association list. -/
abbrev Payload := List (String × PValue)

/-- The `MiddlewareMessage` dataclass of `aatmmiddleware.py` (lines
26-35), after `__post_init__` has run: `recipient` stays optional
(`None` means broadcast), while `payload` and `timestamp` have been
defaulted and are no longer nullable. -/
structure MiddlewareMessage where
  message_id : String
  message_type : MessageType
  sender : String
  recipient : Option String
  payload : Payload
  timestamp : Rat
  priority : Int
  deriving DecidableEq, Repr

/-- Construction of a `MiddlewareMessage`: the dataclass-generated
constructor followed by `__post_init__` (lines 37-41).  `now` stands for
`time.time()` at construction time.  The `timestamp` branch (lines
38-40) is taken verbatim from the source; the body of the
`if self.payload is None` branch is cut off at line 41 of the source,
and per the spec it assigns the empty mapping. -/
def mkMiddlewareMessage (now : Rat) (message_id : String)
    (message_type : MessageType) (sender : String)
    (recipient : Option String) (payload : Option Payload)
    (timestamp : Option Rat) (priority : Int) : MiddlewareMessage :=
  let ts : Rat :=
    match timestamp with
    | none => now
    | some t => t
  let pl : Payload :=
    match payload with
    | none => []
    | some p => p
  ⟨message_id, message_type, sender, recipient, pl, ts, priority⟩

/-- Modelled from the spec: a `Subscription` of the Subscription
Registry (spec §3): a `(subscriber_id, kind)` binding to a handler
reference.  The Registry class itself is past the truncation point of
`aatmmiddleware.py`; the handler is modelled by an opaque numeric
handle, since the bus only stores and invokes it. -/
structure Subscription where
  subscriber_id : String
  kind : MessageType
  handler : Nat
  deriving DecidableEq, Repr

/-- Modelled from the spec: `Registry.register(subscriber_id, kind,
handler)` (spec §4.3), absent from the truncated source.  Idempotent per
`(subscriber_id, kind)`: a second call replaces the handler for that
pair. -/
def register (sid : String) (k : MessageType) (h : Nat)
    (regs : List Subscription) : List Subscription :=
  ⟨sid, k, h⟩ ::
    regs.filter (fun s => !(decide (s.subscriber_id = sid) && decide (s.kind = k)))

/-- Modelled from the spec: `Registry.unregister(subscriber_id, kind)`
(spec §4.3), absent from the truncated source: removes the subscription;
no-op (not an error) if absent. -/
def unregister (sid : String) (k : MessageType)
    (regs : List Subscription) : List Subscription :=
  regs.filter (fun s => !(decide (s.subscriber_id = sid) && decide (s.kind = k)))

/-- Modelled from the spec: `Router.resolve(message)` (spec §4.1),
absent from the truncated source: all active subscriptions whose `kind`
matches the message's kind, further filtered to
`subscriber_id == message.recipient` when a recipient is set; all
matching subscriptions (broadcast) when the recipient is absent. -/
def resolve (m : MiddlewareMessage) (regs : List Subscription) :
    List Subscription :=
  regs.filter (fun s =>
    decide (s.kind = m.message_type) &&
      match m.recipient with
      | none => true
      | some r => decide (s.subscriber_id = r))

/-- The dispatch key of a message: the Dispatcher (spec §4.2) orders
pending messages by higher `priority` first, then earlier `timestamp`,
then `id`.  Negating the priority turns all three components ascending,
so the key order is lexicographic. -/
def msgKey (m : MiddlewareMessage) : Int ×ₗ (Rat ×ₗ String) :=
  toLex (-m.priority, toLex (m.timestamp, m.message_id))

/-- `a` is dispatched no later than `b`. -/
def msgLe (a b : MiddlewareMessage) : Prop := msgKey a ≤ msgKey b

instance : DecidableRel msgLe := fun a b =>
  inferInstanceAs (Decidable (msgKey a ≤ msgKey b))

instance : IsTotal MiddlewareMessage msgLe :=
  ⟨fun a b => le_total (msgKey a) (msgKey b)⟩

instance : IsTrans MiddlewareMessage msgLe :=
  ⟨fun _ _ _ hab hbc => le_trans hab hbc⟩

/-- Modelled from the spec: the order in which the Dispatcher (spec
§4.2, absent from the truncated source) drains the pending set — a
stable priority-ordered sort of the pending messages. -/
def deliveryOrder (pending : List MiddlewareMessage) :
    List MiddlewareMessage :=
  pending.insertionSort msgLe

/-- The errors `publish` surfaces to the caller (spec §7). -/
inductive PublishError where
  | InvalidMessage
  | QueueFull
  deriving DecidableEq, Repr

/-- The bus's shared mutable state: the Subscription Registry and the
pending-message queue (spec §5). -/
structure BusState where
  registry : List Subscription
  pending : List MiddlewareMessage
  deriving DecidableEq, Repr

/-- Modelled from the spec: `Dispatcher.publish(message)` (spec §4.2),
absent from the truncated source.  Validates `priority ∈ [1,5]` (fails
with `InvalidMessage` otherwise), fails with `QueueFull` when the
pending queue has reached the configured capacity `cap`, and otherwise
appends the message to the pending queue.  A failed publish returns the
state unchanged (no partial effect). -/
def publish (cap : Nat) (m : MiddlewareMessage) (st : BusState) :
    Except PublishError Unit × BusState :=
  if m.priority < 1 ∨ 5 < m.priority then (.error .InvalidMessage, st)
  else if cap ≤ st.pending.length then (.error .QueueFull, st)
  else (.ok (), { st with pending := st.pending ++ [m] })

/-- The outcome of one delivery attempt (spec §4.2). -/
inductive DeliveryStatus where
  | delivered
  | fault
  deriving DecidableEq, Repr

/-- One delivery attempt: which subscriber was handed which message,
and whether its handler succeeded. -/
structure DeliveryRecord where
  subscriber : String
  message : MiddlewareMessage
  status : DeliveryStatus
  deriving DecidableEq, Repr

/-- Modelled from the spec: delivery of one dispatched message (spec
§4.2), absent from the truncated source.  Every resolved subscriber
receives a reference to the same message; a handler failure (raise or
timeout, abstracted by the `fail` predicate) is caught at the Dispatcher
boundary and recorded as a per-subscriber fault, never raised. -/
def deliverAll (fail : String → Bool) (m : MiddlewareMessage)
    (regs : List Subscription) : List DeliveryRecord :=
  (resolve m regs).map (fun s =>
    ⟨s.subscriber_id, m,
      if fail s.subscriber_id then .fault else .delivered⟩)

/-- Modelled from the spec: one turn of the dispatch loop (spec §5),
absent from the truncated source: take the highest-priority pending
message, deliver it to every resolved subscriber, and remove it from
the queue.  The function is total: subscriber failures never escape to
the bus or the publishing caller. -/
def dispatchOne (fail : String → Bool) (st : BusState) :
    BusState × List DeliveryRecord :=
  match deliveryOrder st.pending with
  | [] => (st, [])
  | m :: rest => ({ st with pending := rest }, deliverAll fail m st.registry)

/-- The `TradingMode` enum of `config.py` (lines 12-15). -/
inductive TradingMode where
  | BACKTEST
  | PAPER
  | LIVE
  deriving DecidableEq, Repr

/-- The `EvolutionStrategy` enum of `config.py` (lines 17-20). -/
inductive EvolutionStrategy where
  | NEAT
  | GA
  | CMA_ES
  deriving DecidableEq, Repr

/-- Python `TradingMode(value)`: enum lookup by value, `none` models the
`ValueError` raised on an unknown value. -/
def TradingMode.ofValue (s : String) : Option TradingMode :=
  if s = "backtest" then some .BACKTEST
  else if s = "paper" then some .PAPER
  else if s = "live" then some .LIVE
  else none

/-- Python `EvolutionStrategy(value)`: enum lookup by value. -/
def EvolutionStrategy.ofValue (s : String) : Option EvolutionStrategy :=
  if s = "neat" then some .NEAT
  else if s = "genetic_algorithm" then some .GA
  else if s = "cma_es" then some .CMA_ES
  else none

/-- The `DatabaseConfig` dataclass (`config.py` lines 22-27); the
credentials-file existence check in its `__post_init__` only logs a
warning and is not modelled. -/
structure DatabaseConfig where
  project_id : String
  credentials_path : String
  collection_prefix : String
  deriving DecidableEq, Repr

/-- The `NeuroevolutionConfig` dataclass (`config.py` lines 33-41). -/
structure NeuroevolutionConfig where
  strategy : EvolutionStrategy
  population_size : Int
  generations : Int
  mutation_rate : Rat
  crossover_rate : Rat
  elite_size : Int
  deriving DecidableEq, Repr

/-- The `TradingConfig` dataclass (`config.py` lines 43-50). -/
structure TradingConfig where
  mode : TradingMode
  max_position_size : Rat
  stop_loss_pct : Rat
  take_profit_pct : Rat
  max_open_positions : Int
  deriving DecidableEq, Repr

/-- The `RiskConfig` dataclass (`config.py` lines 52-58). -/
structure RiskConfig where
  max_daily_loss : Rat
  max_drawdown : Rat
  var_confidence : Rat
  correlation_threshold : Rat
  deriving DecidableEq, Repr

/-- The four sections `_load_config` assigns onto the `Config`
instance. -/
structure ConfigData where
  db : DatabaseConfig
  neuro : NeuroevolutionConfig
  trading : TradingConfig
  risk : RiskConfig
  deriving DecidableEq, Repr

/-- The process environment: `os.getenv` keys to values. -/
abbrev Env := String → Option String

/-- `os.getenv(key, default)`. -/
def getenv (env : Env) (key dflt : String) : String := (env key).getD dflt

/-- Python `float(s)` on the decimal literals the configuration uses,
as an exact rational; `none` models the `ValueError` on bad input. -/
def parseFloat (s : String) : Option Rat :=
  match s.split (fun c => c = '.') with
  | [a] => (a.toInt?).map (fun i => (i : Rat))
  | [a, b] =>
    match a.toInt?, b.toNat? with
    | some i, some f =>
      let frac : Rat := (f : Rat) / ((10 : Rat) ^ b.length)
      some (if s.startsWith "-" then (i : Rat) - frac else (i : Rat) + frac)
    | _, _ => none
  | _ => none

/-- `Config._load_config` (`config.py` lines 70-99): builds every
configuration section from environment variables with the source's
defaults.  `none` models an exception raised by an unparsable value;
dataclass fields `_load_config` does not pass keep their dataclass
defaults. -/
def loadConfig (env : Env) : Option ConfigData := do
  let strategy ← EvolutionStrategy.ofValue
    (getenv env "EVOLUTION_STRATEGY" "genetic_algorithm")
  let pop ← (getenv env "POPULATION_SIZE" "100").toInt?
  let gens ← (getenv env "GENERATIONS" "50").toInt?
  let mode ← TradingMode.ofValue (getenv env "TRADING_MODE" "paper")
  let mps ← parseFloat (getenv env "MAX_POSITION_SIZE" "0.1")
  let mdl ← parseFloat (getenv env "MAX_DAILY_LOSS" "0.02")
  some
    { db := ⟨getenv env "FIREBASE_PROJECT_ID" "aatm-trading",
             getenv env "FIREBASE_CREDENTIALS_PATH"
               "credentials/firebase-service-account.json",
             "aatm"⟩
      neuro := ⟨strategy, pop, gens, 1/10, 7/10, 5⟩
      trading := ⟨mode, mps, 1/50, 1/20, 5⟩
      risk := ⟨mdl, 1/10, 19/20, 7/10⟩ }

/-- A `Config` object: its sections, or `none` while `_load_config` has
not completed (Python's `__new__` assigns `cls._instance` before calling
`_load_config`, so a failed load still leaves an instance cached). -/
structure ConfigObj where
  loaded : Option ConfigData
  deriving DecidableEq, Repr

/-- Process-level state behind the `Config` singleton: the cached
`Config._instance` and a count of how many times `_load_config` has
run. -/
structure ProcState where
  inst : Option ConfigObj
  loadCount : Nat
  deriving DecidableEq, Repr

/-- `Config.__new__` (`config.py` lines 64-68): on the first call the
instance is allocated, cached in `cls._instance`, and `_load_config`
runs; every later call returns the cached instance without loading. -/
def Config.new (env : Env) (st : ProcState) : Option ConfigObj × ProcState :=
  match st.inst with
  | some c => (some c, st)
  | none =>
    match loadConfig env with
    | some d => (some ⟨some d⟩, ⟨some ⟨some d⟩, st.loadCount + 1⟩)
    | none => (none, ⟨some ⟨none⟩, st.loadCount + 1⟩)

/-- `get_config()` (`config.py` lines 118-120). -/
def get_config (env : Env) (st : ProcState) :
    Option ConfigObj × ProcState :=
  Config.new env st

/-- C4: a message constructed with `payload` omitted carries the empty
mapping; the `payload` field of a constructed message is total (its type
is `Payload`, not `Option Payload`), hence never null. -/
theorem payload_defaults_to_empty (now : Rat) (mid : String)
    (mt : MessageType) (sender : String) (recipient : Option String)
    (timestamp : Option Rat) (priority : Int) :
    (mkMiddlewareMessage now mid mt sender recipient none timestamp
      priority).payload = [] := by
  cases timestamp <;> rfl

/-- C5: a message constructed with `timestamp` not supplied gets the
current time `now`; a supplied timestamp is stored unchanged. -/
theorem timestamp_default_and_passthrough (now t : Rat) (mid : String)
    (mt : MessageType) (sender : String) (recipient : Option String)
    (payload : Option Payload) (priority : Int) :
    (mkMiddlewareMessage now mid mt sender recipient payload none
      priority).timestamp = now ∧
    (mkMiddlewareMessage now mid mt sender recipient payload (some t)
      priority).timestamp = t := by
  cases payload <;> exact ⟨rfl, rfl⟩

/-- `m1` occupies an earlier position than `m2` in the delivery
sequence `l`. -/
def deliveredBefore (m1 m2 : MiddlewareMessage)
    (l : List MiddlewareMessage) : Prop :=
  ∃ i j : Nat, i < j ∧ l[i]? = some m1 ∧ l[j]? = some m2

/-- C1: among pending messages, higher priority is delivered first;
within equal priority, the earlier timestamp (publish order) wins; a
remaining tie is broken by message id. -/
theorem priority_ordering (pending : List MiddlewareMessage)
    (m1 m2 : MiddlewareMessage) (h1 : m1 ∈ pending) (h2 : m2 ∈ pending)
    (hlt : m2.priority < m1.priority ∨
      (m1.priority = m2.priority ∧ (m1.timestamp < m2.timestamp ∨
        (m1.timestamp = m2.timestamp ∧ m1.message_id < m2.message_id)))) :
    deliveredBefore m1 m2 (deliveryOrder pending) := by
  have hkey : msgKey m1 < msgKey m2 := by
    unfold msgKey
    rw [Prod.Lex.lt_iff]
    dsimp only
    rcases hlt with h | ⟨hp, h⟩
    · left; omega
    · right
      refine ⟨by omega, ?_⟩
      rw [Prod.Lex.lt_iff]
      dsimp only
      rcases h with h | ⟨ht, hid⟩
      · left; exact h
      · right; exact ⟨ht, hid⟩
  have hsorted : (deliveryOrder pending).Sorted msgLe :=
    List.sorted_insertionSort msgLe pending
  have hperm : List.Perm (deliveryOrder pending) pending :=
    List.perm_insertionSort msgLe pending
  have hm1 : m1 ∈ deliveryOrder pending := hperm.mem_iff.mpr h1
  have hm2 : m2 ∈ deliveryOrder pending := hperm.mem_iff.mpr h2
  obtain ⟨i, hi⟩ := List.get_of_mem hm1
  obtain ⟨j, hj⟩ := List.get_of_mem hm2
  have hij : (i : Nat) < (j : Nat) := by
    rcases lt_trichotomy (i : Nat) (j : Nat) with h | h | h
    · exact h
    · exfalso
      have hij : i = j := Fin.ext h
      rw [hij, hj] at hi
      exact absurd hkey (by rw [hi]; exact lt_irrefl _)
    · exfalso
      have hrel := hsorted.rel_get_of_lt (show j < i from h)
      rw [hi, hj] at hrel
      exact absurd hkey (not_lt.mpr hrel)
  refine ⟨i, j, hij, ?_, ?_⟩
  · rw [List.getElem?_eq_getElem i.isLt, ← List.get_eq_getElem, hi]
  · rw [List.getElem?_eq_getElem j.isLt, ← List.get_eq_getElem, hj]

/-- A low-priority message published first (earlier timestamp). -/
def mLow : MiddlewareMessage :=
  mkMiddlewareMessage 0 "m1" .MARKET_DATA "feed" none none (some 0) 1

/-- A high-priority message published second (later timestamp). -/
def mHigh : MiddlewareMessage :=
  mkMiddlewareMessage 0 "m2" .MARKET_DATA "feed" none none (some 1) 5

/-- Witness for C1: with M1 at priority 1 published before M2 at
priority 5, M2 is delivered before M1. -/
theorem priority_ordering_witness :
    deliveredBefore mHigh mLow (deliveryOrder [mLow, mHigh]) :=
  priority_ordering [mLow, mHigh] mHigh mLow (by simp) (by simp)
    (Or.inl (by decide))

/-- C3: messages are immutable values for their whole lifetime in the
bus: `publish` stores the message exactly as constructed, dispatch
ordering only permutes the pending messages, and every delivery hands a
subscriber the identical message — no operation of the bus alters any
field of a constructed message. -/
theorem message_immutability (cap : Nat) (m m' : MiddlewareMessage)
    (st : BusState) (fail : String → Bool) (regs : List Subscription)
    (r : DeliveryRecord) :
    (m' ∈ (publish cap m st).2.pending → m' = m ∨ m' ∈ st.pending) ∧
    (m' ∈ deliveryOrder st.pending ↔ m' ∈ st.pending) ∧
    (r ∈ deliverAll fail m regs → r.message = m) := by
  refine ⟨?_, ?_, ?_⟩
  · intro hmem
    unfold publish at hmem
    split_ifs at hmem with h1 h2
    · exact Or.inr hmem
    · exact Or.inr hmem
    · simp only [List.mem_append, List.mem_singleton] at hmem
      exact hmem.symm.imp id id |>.symm.elim Or.inr Or.inl
  · exact (List.perm_insertionSort msgLe st.pending).mem_iff
  · intro hr
    unfold deliverAll at hr
    obtain ⟨s, _, hs⟩ := List.mem_map.mp hr
    rw [← hs]

/-- Witness for C3: a concrete published message is found unchanged in
the queue after `publish`. -/
theorem message_immutability_witness :
    mLow = mLow ∨ mLow ∈ (⟨[], []⟩ : BusState).pending :=
  (message_immutability 2 mLow mLow ⟨[], []⟩ (fun _ => false) []
    ⟨"x", mLow, .delivered⟩).1 (by decide)

/-- A handler-outcome map under which no subscriber fails. -/
def failNone : String → Bool := fun _ => false

/-- A broadcast risk alert used in concrete delivery scenarios. -/
def mAlert : MiddlewareMessage :=
  mkMiddlewareMessage 0 "a1" .RISK_ALERT "exec" none none (some 0) 5

/-- Two subscribers of the alert kind, one of which will crash. -/
def regsTwo : List Subscription :=
  [⟨"healthy", .RISK_ALERT, 0⟩, ⟨"crashy", .RISK_ALERT, 1⟩]

/-- C8: a failure of subscriber `A`'s handler is absorbed at the
Dispatcher boundary: a distinct resolved subscriber `B` with a healthy
handler still receives the identical message marked delivered, and the
bus state the publishing caller observes after the dispatch turn is the
same as if no handler had failed (nothing propagates to the caller). -/
theorem delivery_isolation (regs : List Subscription)
    (m : MiddlewareMessage) (st : BusState) (fail : String → Bool)
    (A B : String) (hAB : A ≠ B)
    (hB : ∃ s ∈ resolve m regs, s.subscriber_id = B)
    (hBok : fail B = false) :
    (∃ r ∈ deliverAll (fun sid => (sid == A) || fail sid) m regs,
        r.subscriber = B ∧ r.message = m ∧ r.status = .delivered) ∧
    (dispatchOne (fun sid => (sid == A) || fail sid) st).1 =
      (dispatchOne fail st).1 := by
  constructor
  · obtain ⟨s, hs, hsB⟩ := hB
    have hc : ((s.subscriber_id == A) || fail s.subscriber_id) = false := by
      rw [hsB, hBok]
      simp [Ne.symm hAB]
    refine ⟨⟨s.subscriber_id, m, .delivered⟩, ?_, hsB, rfl, rfl⟩
    apply List.mem_map.mpr
    exact ⟨s, hs, by simp only [hc, Bool.false_eq_true, if_false]⟩
  · unfold dispatchOne
    cases hd : deliveryOrder st.pending with
    | nil => simp [hd]
    | cons a rest => simp [hd]

/-- Witness for C8: with subscribers "healthy" and "crashy" both
resolved for a broadcast risk alert and "crashy" failing, "healthy"
still receives the exact message. -/
theorem delivery_isolation_witness :
    (∃ r ∈ deliverAll (fun sid => (sid == "crashy") || failNone sid)
        mAlert regsTwo,
        r.subscriber = "healthy" ∧ r.message = mAlert ∧
          r.status = .delivered) ∧
    (dispatchOne (fun sid => (sid == "crashy") || failNone sid)
        ⟨regsTwo, []⟩).1 =
      (dispatchOne failNone ⟨regsTwo, []⟩).1 :=
  delivery_isolation regsTwo mAlert ⟨regsTwo, []⟩ failNone "crashy"
    "healthy" (by decide) (by decide) rfl

/-- C2: `resolve` returns exactly the active subscriptions of the
message's kind, restricted to the subscriber named by `recipient` when
one is set; with no recipient, every active subscriber of the kind is
resolved and no subscriber of another kind is. -/
theorem resolve_characterization (m : MiddlewareMessage)
    (regs : List Subscription) (s : Subscription) :
    s ∈ resolve m regs ↔
      s ∈ regs ∧ s.kind = m.message_type ∧
        ∀ r, m.recipient = some r → s.subscriber_id = r := by
  unfold resolve
  cases hrec : m.recipient with
  | none => simp [List.mem_filter, hrec]
  | some r => simp [List.mem_filter, hrec, and_assoc]

/-- C9: unregistering a `(subscriber_id, kind)` pair that has no active
subscription leaves the Registry unchanged (a benign no-op, no error is
possible since `unregister` is total), and `unregister` is idempotent:
a second call for the same pair has no further effect. -/
theorem unregister_noop_and_idempotent (sid : String) (k : MessageType)
    (regs : List Subscription)
    (habsent : ∀ s ∈ regs, ¬(s.subscriber_id = sid ∧ s.kind = k)) :
    unregister sid k regs = regs ∧
      ∀ regs' : List Subscription,
        unregister sid k (unregister sid k regs') =
          unregister sid k regs' := by
  constructor
  · apply List.filter_eq_self.mpr
    intro s hs
    simpa using not_and_or.mp (habsent s hs)
  · intro regs'
    unfold unregister
    rw [List.filter_filter]
    congr 1
    funext s
    cases decide (s.subscriber_id = sid) <;> cases decide (s.kind = k) <;> rfl

/-- C6: `publish` fails with `InvalidMessage` exactly when the message's
priority lies outside `[1,5]` (in this typed embedding the required
fields `message_id`, `message_type` and `sender` cannot be missing), and
such a failure has no partial effect: the whole bus state — pending
queue and registry — is returned unchanged. -/
theorem publish_invalid_iff (cap : Nat) (m : MiddlewareMessage)
    (st : BusState) :
    ((publish cap m st).1 = .error .InvalidMessage ↔
      ¬(1 ≤ m.priority ∧ m.priority ≤ 5)) ∧
    ((publish cap m st).1 = .error .InvalidMessage →
      (publish cap m st).2 = st) := by
  unfold publish
  split_ifs with h1 h2 <;> simp_all
  omega

/-- C7: when the pending queue has reached the configured capacity,
publishing a valid message fails synchronously with `QueueFull`, the
state is returned unchanged (uncorrupted), and once the queue has
drained below capacity a valid publish succeeds; moreover each dispatch
turn removes exactly one pending message, so the queue does drain. -/
theorem publish_queuefull_and_recovery (cap : Nat)
    (m m' : MiddlewareMessage) (st st' : BusState)
    (hval : 1 ≤ m.priority ∧ m.priority ≤ 5)
    (hfull : cap ≤ st.pending.length)
    (hval' : 1 ≤ m'.priority ∧ m'.priority ≤ 5)
    (hdrained : st'.pending.length < cap) :
    (publish cap m st).1 = .error .QueueFull ∧
    (publish cap m st).2 = st ∧
    (publish cap m' st').1 = .ok () ∧
    ∀ fail : String → Bool, st.pending ≠ [] →
      (dispatchOne fail st).1.pending.length + 1 = st.pending.length := by
  refine ⟨?_, ?_, ?_, ?_⟩
  · unfold publish
    split_ifs with h1
    · exact absurd h1 (by omega)
    · rfl
  · unfold publish
    split_ifs with h1
    · rfl
    · rfl
  · unfold publish
    split_ifs with h1 h2
    · exact absurd h1 (by omega)
    · exact absurd h2 (by omega)
    · rfl
  · intro fail hne
    unfold dispatchOne
    cases hd : deliveryOrder st.pending with
    | nil =>
        exfalso
        have hlen : (deliveryOrder st.pending).length = st.pending.length :=
          (List.perm_insertionSort msgLe st.pending).length_eq
        rw [hd] at hlen
        exact hne (List.length_eq_zero.mp hlen.symm)
    | cons a rest =>
        have hlen : (deliveryOrder st.pending).length = st.pending.length :=
          (List.perm_insertionSort msgLe st.pending).length_eq
        rw [hd] at hlen
        simpa using hlen

/-- C10: the configuration is a per-process singleton.  Starting from a
fresh process state, the first `get_config()` call runs `_load_config`
exactly once (the load count rises by one); a later call — under any
environment, including one whose variables have changed since — leaves
the process state untouched (so `_load_config` never reruns) and
returns exactly the cached instance. -/
theorem get_config_singleton (env env2 : Env) (st : ProcState)
    (hfresh : st.inst = none) :
    ((get_config env st).2.loadCount = st.loadCount + 1) ∧
    (get_config env2 (get_config env st).2).2 = (get_config env st).2 ∧
    (get_config env2 (get_config env st).2).1 =
      (get_config env st).2.inst := by
  unfold get_config Config.new
  rw [hfresh]
  cases hl : loadConfig env <;> exact ⟨rfl, rfl, rfl⟩

/-- An environment with no configuration variables set. -/
def envDefaults : Env := fun _ => none

/-- An environment whose variables were changed after startup. -/
def envChanged : Env := fun _ => some "live"

/-- A fresh process state: no cached instance, no loads yet. -/
def stFresh : ProcState := ⟨none, 0⟩

/-- Witness for C10: loading once under the default environment, then
calling again under a changed environment, returns the cached instance
and does not reload. -/
theorem get_config_singleton_witness :
    ((get_config envDefaults stFresh).2.loadCount =
      stFresh.loadCount + 1) ∧
    (get_config envChanged (get_config envDefaults stFresh).2).2 =
      (get_config envDefaults stFresh).2 ∧
    (get_config envChanged (get_config envDefaults stFresh).2).1 =
      (get_config envDefaults stFresh).2.inst :=
  get_config_singleton envDefaults envChanged stFresh rfl

/-- A message whose priority 7 lies outside the valid range [1,5]. -/
def mBad : MiddlewareMessage :=
  mkMiddlewareMessage 0 "bad" .ORDER_EXECUTION "exec" none none (some 0) 7

/-- Witness for C6: publishing the priority-7 message is rejected with
`InvalidMessage`. -/
theorem publish_invalid_witness :
    (publish 4 mBad ⟨[], []⟩).1 = Except.error PublishError.InvalidMessage :=
  (publish_invalid_iff 4 mBad ⟨[], []⟩).1.mpr (by decide)

/-- A bus whose pending queue holds one message, at capacity 1. -/
def stFull : BusState := ⟨[], [mLow]⟩

/-- Witness for C7: at capacity 1 with one pending message, a valid
publish fails with `QueueFull` leaving the state unchanged, and one
dispatch turn drains one message. -/
theorem publish_queuefull_witness :
    (publish 1 mAlert stFull).1 = Except.error PublishError.QueueFull ∧
    (publish 1 mAlert stFull).2 = stFull ∧
    (dispatchOne failNone stFull).1.pending.length + 1 =
      stFull.pending.length := by
  have h := publish_queuefull_and_recovery 1 mAlert mLow stFull ⟨[], []⟩
    (by decide) (by decide) (by decide) (by decide)
  exact ⟨h.1, h.2.1, h.2.2.2 failNone (by decide)⟩

/-- A registry holding a single risk-alert subscriber. -/
def regsRisk : List Subscription := [⟨"risk", .RISK_ALERT, 0⟩]

/-- Witness for C9: unregistering a pair with no active subscription
leaves the registry unchanged. -/
theorem unregister_noop_witness :
    unregister "md" MessageType.MARKET_DATA regsRisk = regsRisk :=
  (unregister_noop_and_idempotent "md" .MARKET_DATA regsRisk
    (by decide)).1
